import Mathlib

/-!
Shallow embedding of the client-side logic of the ai-design-studio frontend
(React application). Weights and intensities, which are JS numbers, are
modelled as rationals; browser and network effects are made explicit:
each handler takes the backend response it would observe as an argument and
returns the new component state together with the list of network requests
it issued.
-/

/-- ImageRef as built in App.js handleContentUpload and handleStyleUpload:
filename and path come from the server response, preview is the object URL
handle returned by URL.createObjectURL (modelled as a numeric handle id). -/
structure ImageRef where
  filename : String
  path : String
  preview : Nat
  deriving DecidableEq, Repr

/-- Result record built in App.js handleStyleTransfer on a successful
response (filename, derived url, processing time label). -/
structure ResultImage where
  filename : String
  url : String
  processingTime : String
  deriving DecidableEq, Repr

/-- The App.js component state relevant to the transfer workflow: the
useState slots contentImage, styleImage, resultImage, isProcessing,
processingProgress, styleIntensity, quality and error. -/
structure AppState where
  contentImage : Option ImageRef
  styleImage : Option ImageRef
  resultImage : Option ResultImage
  isProcessing : Bool
  processingProgress : Nat
  styleIntensity : ℚ
  quality : String
  error : Option String
  deriving DecidableEq, Repr

/-- Body of a POST to /api/transfer or /api/quick-transfer as built in
App.js handleStyleTransfer; quality is absent (none) in quick mode. -/
structure TransferRequest where
  content_image : String
  style_image : String
  intensity : ℚ
  quality : Option String
  deriving DecidableEq, Repr

/-- Outcome of the awaited transfer call: ok models a 2xx response with its
JSON payload (success flag, output_image, processing_time), httpError
models any transport or HTTP failure, which axios surfaces as a rejected
promise carrying a message. -/
inductive TransferResponse where
  | ok (success : Bool) (output_image : String) (processing_time : String)
  | httpError (message : String)
  deriving DecidableEq, Repr

/-- Default base URL from services/api.js. -/
def API_BASE_URL : String := "http://localhost:5000"

/-- getImageUrl from services/api.js: pure string derivation. -/
def getImageUrl (filename : String) : String :=
  API_BASE_URL ++ "/api/image/" ++ filename

/-- handleStyleTransfer from App.js lines 74-119. Guard: if either image is
missing, set the error message and return without any request. Otherwise
set isProcessing, clear the error, reset progress, issue the request
(quick or standard according to quickMode), then: on a payload with
success true store the result and progress 100; on success false do
nothing further; on a thrown transport or HTTP error set the failure
message. The finally block clears isProcessing in every non-guard path. -/
def handleStyleTransfer (quickMode : Bool) (s : AppState)
    (response : TransferResponse) : AppState × List TransferRequest :=
  match s.contentImage, s.styleImage with
  | some c, some st =>
      let req : TransferRequest :=
        { content_image := c.path
          style_image := st.path
          intensity := s.styleIntensity
          quality := if quickMode then none else some s.quality }
      let s1 : AppState :=
        { s with isProcessing := true, error := none, processingProgress := 0 }
      match response with
      | TransferResponse.ok success out time =>
          if success then
            ({ s1 with
                resultImage := some
                  { filename := out, url := getImageUrl out, processingTime := time }
                processingProgress := 100
                isProcessing := false }, [req])
          else
            ({ s1 with isProcessing := false }, [req])
      | TransferResponse.httpError msg =>
          ({ s1 with
              error := some ("Style transfer failed: " ++ msg)
              isProcessing := false }, [req])
  | _, _ =>
      ({ s with error := some "Please upload both content and style images" }, [])

/-- Disabled attribute of the two transfer buttons in App.js (lines 287 and
303): disabled whenever an image is missing or a transfer is processing. -/
def transferButtonDisabled (s : AppState) : Bool :=
  s.contentImage.isNone || s.styleImage.isNone || s.isProcessing

/-- min attribute of the intensity slider input in App.js. -/
def intensitySliderMin : ℚ := 1/10

/-- max attribute of the intensity slider input in App.js. -/
def intensitySliderMax : ℚ := 2

/-- Sample content ImageRef used for concrete evaluations. -/
def sampleContent : ImageRef :=
  { filename := "cat.png", path := "/uploads/cat.png", preview := 0 }

/-- Sample style ImageRef used for concrete evaluations. -/
def sampleStyle : ImageRef :=
  { filename := "vangogh.png", path := "/uploads/vangogh.png", preview := 1 }

/-- Initial App.js state: all slots empty, intensity 1.0, quality standard. -/
def idleState : AppState :=
  { contentImage := none, styleImage := none, resultImage := none
    isProcessing := false, processingProgress := 0, styleIntensity := 1
    quality := "standard", error := none }

/-- State with both images uploaded and no transfer in flight. -/
def readyState : AppState :=
  { idleState with contentImage := some sampleContent, styleImage := some sampleStyle }

/-- State with both images uploaded and a transfer already processing. -/
def processingState : AppState :=
  { readyState with isProcessing := true }

/-- Ready state whose intensity 2.5 lies outside the slider range. -/
def outOfRangeState : AppState :=
  { readyState with styleIntensity := 5/2 }

/-- MixerEntry from the StyleMixer component: id, weight and display name,
as held in its styles useState slot. -/
structure MixerStyle where
  id : Nat
  weight : ℚ
  name : String
  deriving DecidableEq, Repr

/-- Initial mixer state: a single entry of weight 0.5. -/
def initialMixerStyles : List MixerStyle :=
  [{ id := 1, weight := 1/2, name := "Style 1" }]

/-- Two-entry mixer state used for concrete evaluations. -/
def twoStyles : List MixerStyle :=
  [{ id := 1, weight := 1/2, name := "Style 1" },
   { id := 2, weight := 1/4, name := "Style 2" }]

/-- Four-entry mixer state used for concrete evaluations. -/
def fourStyles : List MixerStyle :=
  [{ id := 1, weight := 1/2, name := "Style 1" },
   { id := 2, weight := 1/2, name := "Style 2" },
   { id := 3, weight := 1/2, name := "Style 3" },
   { id := 4, weight := 1/2, name := "Style 4" }]

/-- Degenerate single-entry mixer state in which every weight is zero. -/
def zeroStyles : List MixerStyle :=
  [{ id := 1, weight := 0, name := "Style 1" }]

/-- addStyle from the StyleMixer component: appends a fresh entry of weight
0.5 only while fewer than 4 entries exist; the fresh id (Date.now in the
source) is passed as a parameter. -/
def addStyle (newId : Nat) (styles : List MixerStyle) : List MixerStyle :=
  if styles.length < 4 then
    styles ++ [{ id := newId, weight := 1/2
                 name := "Style " ++ toString (styles.length + 1) }]
  else styles

/-- removeStyle from the StyleMixer component: filters the entry out only
while more than one entry exists. -/
def removeStyle (id : Nat) (styles : List MixerStyle) : List MixerStyle :=
  if styles.length > 1 then styles.filter (fun s => s.id != id) else styles

/-- updateWeight from the StyleMixer component: replaces the weight of the
entry with the given id. -/
def updateWeight (id : Nat) (w : ℚ) (styles : List MixerStyle) : List MixerStyle :=
  styles.map (fun s => if s.id = id then { s with weight := w } else s)

/-- Total computed inside normalizeWeights in the StyleMixer component:
styles.reduce((sum, s) => sum + s.weight, 0). -/
def mixTotal (styles : List MixerStyle) : ℚ :=
  styles.foldl (fun sum s => sum + s.weight) 0

/-- normalizeWeights from the StyleMixer component: maps every entry to a
copy whose weight is divided by the total; there is no guard on the total
being zero. -/
def normalizeWeights (styles : List MixerStyle) : List MixerStyle :=
  styles.map (fun s => { s with weight := s.weight / mixTotal styles })

/-- handleMix from the StyleMixer component: emits the normalized copy to
the onMixStyles consumer and performs no setStyles, so the first component
(the state after the call) is the unchanged input. -/
def handleMix (styles : List MixerStyle) : List MixerStyle × List MixerStyle :=
  (styles, normalizeWeights styles)

/-- GalleryEntry as consumed by Gallery.jsx: only the filename field is
read by the component logic. -/
structure GalleryImage where
  filename : String
  deriving DecidableEq, Repr

/-- The Gallery.jsx component state touched by handleDelete: the cached
images list and the selectedImage preview slot. -/
structure GalleryState where
  images : List GalleryImage
  selectedImage : Option GalleryImage
  deriving DecidableEq, Repr

/-- Outcome of the awaited DELETE /api/gallery/filename call. -/
inductive DeleteOutcome where
  | success
  | failure (message : String)
  deriving DecidableEq, Repr

/-- handleDelete from Gallery.jsx lines 29-40: if the user confirms, await
the remote delete; on success filter the entry out of the cache and clear
the selection; on failure (catch) only log and alert, leaving the state
untouched; without confirmation nothing happens. -/
def handleDelete (confirmed : Bool) (outcome : DeleteOutcome)
    (filename : String) (g : GalleryState) : GalleryState :=
  if confirmed then
    match outcome with
    | DeleteOutcome.success =>
        { images := g.images.filter (fun img => img.filename != filename)
          selectedImage := none }
    | DeleteOutcome.failure _ => g
  else g

/-- The App.js upload and reset handlers together with the browser object
URL registry: liveHandles lists every handle returned by createObjectURL
and not yet revoked, nextHandle is the next fresh handle id. App.js never
calls URL.revokeObjectURL, so nothing ever leaves liveHandles. -/
structure PreviewEnv where
  contentImage : Option ImageRef
  styleImage : Option ImageRef
  error : Option String
  liveHandles : List Nat
  nextHandle : Nat
  deriving DecidableEq, Repr

/-- URL.createObjectURL as observed by App.js: returns a fresh live handle
and registers it. -/
def createObjectURL (env : PreviewEnv) : Nat × PreviewEnv :=
  (env.nextHandle,
   { env with liveHandles := env.liveHandles ++ [env.nextHandle]
              nextHandle := env.nextHandle + 1 })

/-- Outcome of the awaited POST /api/upload call, carrying the filename and
path fields of the response data on success. -/
inductive UploadOutcome where
  | ok (filename : String) (path : String)
  | failure (message : String)
  deriving DecidableEq, Repr

/-- handleContentUpload from App.js lines 42-56: clear the error, await the
upload; on success build the new ImageRef with a freshly created object
URL handle and store it (the previous preview handle, if any, is not
revoked); on failure set the error message and leave the ImageRef. -/
def handleContentUpload (outcome : UploadOutcome) (env : PreviewEnv) : PreviewEnv :=
  match outcome with
  | UploadOutcome.ok filename path =>
      let env0 := { env with error := none }
      let hp := createObjectURL env0
      { hp.2 with contentImage := some { filename := filename, path := path, preview := hp.1 } }
  | UploadOutcome.failure msg =>
      { env with error := some ("Failed to upload content image: " ++ msg) }

/-- handleReset from App.js lines 121-127 restricted to the fields of
PreviewEnv: clears both ImageRefs and the error, revoking nothing. -/
def handleReset (env : PreviewEnv) : PreviewEnv :=
  { env with contentImage := none, styleImage := none, error := none }

/-- Empty browser environment before any upload. -/
def emptyPreviewEnv : PreviewEnv :=
  { contentImage := none, styleImage := none, error := none
    liveHandles := [], nextHandle := 0 }

/-- Helper: folding the weight sum from any accumulator equals the
accumulator plus the sum of the mapped weights. -/
theorem foldl_add_weight (l : List MixerStyle) (a : ℚ) :
    l.foldl (fun sum s => sum + s.weight) a = a + (l.map (fun s => s.weight)).sum := by
  induction l generalizing a with
  | nil => simp
  | cons x xs ih => simp [List.foldl_cons, ih, add_assoc]

/-- Helper: the reduce-computed total is the sum of the weights. -/
theorem mixTotal_eq_sum (l : List MixerStyle) :
    mixTotal l = (l.map (fun s => s.weight)).sum := by
  simpa using foldl_add_weight l 0

/-- Helper: the sum of weights each divided by t is the sum divided by t. -/
theorem sum_map_weight_div (l : List MixerStyle) (t : ℚ) :
    (l.map (fun s => s.weight / t)).sum = (l.map (fun s => s.weight)).sum / t := by
  induction l with
  | nil => simp
  | cons x xs ih => simp [ih, add_div]

/-- C1: when the content or the style image is absent, handleStyleTransfer
(in either mode, whatever the backend would have answered) issues no
network request and only sets the missing-images error message, leaving
every other field of the state unchanged. -/
theorem submit_missing_image_no_request (quickMode : Bool) (s : AppState)
    (response : TransferResponse)
    (h : s.contentImage = none ∨ s.styleImage = none) :
    handleStyleTransfer quickMode s response
      = ({ s with error := some "Please upload both content and style images" }, []) := by
  rcases h with h | h
  · cases hs : s.styleImage <;> simp [handleStyleTransfer, h, hs]
  · cases hc : s.contentImage <;> simp [handleStyleTransfer, h, hc]

/-- C1 witness: concrete evaluation at the idle state. -/
theorem submit_missing_image_no_request_witness :
    handleStyleTransfer false idleState (TransferResponse.ok true "out.png" "1s")
      = ({ idleState with error := some "Please upload both content and style images" }, []) :=
  submit_missing_image_no_request false idleState
    (TransferResponse.ok true "out.png" "1s") (Or.inl rfl)

/-- C2 counterexample: with both images present and isProcessing already
true, handleStyleTransfer still issues a network request, refuting the
claim that a second submit while processing issues no request. -/
theorem submit_while_processing_issues_request :
    ((handleStyleTransfer false processingState
        (TransferResponse.ok true "out.png" "1s")).2).length = 1 := by
  rfl

/-- C2 amended: handleStyleTransfer itself has no in-flight guard: whenever
both images are present it issues exactly one request regardless of
isProcessing; concurrent submission is prevented only at the UI layer,
where the transfer buttons are disabled whenever isProcessing is true. -/
theorem submit_concurrency_ui_guard (quickMode : Bool) (s : AppState)
    (response : TransferResponse) (c st : ImageRef)
    (hc : s.contentImage = some c) (hst : s.styleImage = some st) :
    ((handleStyleTransfer quickMode s response).2).length = 1 ∧
    (s.isProcessing = true → transferButtonDisabled s = true) := by
  constructor
  · cases response with
    | ok success out time => cases success <;> simp [handleStyleTransfer, hc, hst]
    | httpError msg => simp [handleStyleTransfer, hc, hst]
  · intro h
    simp [transferButtonDisabled, h]

/-- C2 amended witness: concrete evaluation at the processing state. -/
theorem submit_concurrency_ui_guard_witness :
    ((handleStyleTransfer false processingState
        (TransferResponse.ok true "out.png" "1s")).2).length = 1 ∧
    (processingState.isProcessing = true →
      transferButtonDisabled processingState = true) :=
  submit_concurrency_ui_guard false processingState
    (TransferResponse.ok true "out.png" "1s") sampleContent sampleStyle rfl rfl

/-- C3 counterexample: a 2xx response whose payload has success false is
silently ignored: no error message is set (and no result is stored), so
the workflow does not transition to a Failed state as claimed. -/
theorem success_false_not_failed :
    ((handleStyleTransfer false readyState
        (TransferResponse.ok false "out.png" "1s")).1).error = none := by
  rfl

/-- C3 amended: on a transport or HTTP failure the workflow records the
human-readable failure message and both ImageRefs stay populated with
processing cleared, so submit can be called again without re-uploading;
but on a 2xx response with success false no error is surfaced and no
result is stored: the state merely leaves processing, with both ImageRefs
likewise retained. -/
theorem transfer_failure_handling (quickMode : Bool) (s : AppState)
    (c st : ImageRef) (hc : s.contentImage = some c) (hst : s.styleImage = some st) :
    (∀ msg,
      ((handleStyleTransfer quickMode s (TransferResponse.httpError msg)).1).error
          = some ("Style transfer failed: " ++ msg) ∧
      ((handleStyleTransfer quickMode s (TransferResponse.httpError msg)).1).contentImage = some c ∧
      ((handleStyleTransfer quickMode s (TransferResponse.httpError msg)).1).styleImage = some st ∧
      ((handleStyleTransfer quickMode s (TransferResponse.httpError msg)).1).isProcessing = false) ∧
    (∀ out time,
      ((handleStyleTransfer quickMode s (TransferResponse.ok false out time)).1).error = none ∧
      ((handleStyleTransfer quickMode s (TransferResponse.ok false out time)).1).resultImage
          = s.resultImage ∧
      ((handleStyleTransfer quickMode s (TransferResponse.ok false out time)).1).contentImage = some c ∧
      ((handleStyleTransfer quickMode s (TransferResponse.ok false out time)).1).styleImage = some st ∧
      ((handleStyleTransfer quickMode s (TransferResponse.ok false out time)).1).isProcessing = false) := by
  constructor
  · intro msg
    simp [handleStyleTransfer, hc, hst]
  · intro out time
    simp [handleStyleTransfer, hc, hst]

/-- C3 amended witness: concrete evaluation of the HTTP 500 scenario at the
ready state. -/
theorem transfer_failure_handling_witness :
    ((handleStyleTransfer false readyState
        (TransferResponse.httpError "Request failed with status code 500")).1).error
      = some "Style transfer failed: Request failed with status code 500" ∧
    ((handleStyleTransfer false readyState
        (TransferResponse.httpError "Request failed with status code 500")).1).contentImage
      = some sampleContent :=
  ⟨((transfer_failure_handling false readyState sampleContent sampleStyle rfl rfl).1
      "Request failed with status code 500").1,
   ((transfer_failure_handling false readyState sampleContent sampleStyle rfl rfl).1
      "Request failed with status code 500").2.1⟩

/-- C7 counterexample: with intensity 2.5 (outside the slider range) and
both images present, handleStyleTransfer issues a network request carrying
intensity 2.5 instead of failing with a validation error beforehand. -/
theorem submit_out_of_range_intensity_requests :
    ((handleStyleTransfer false outOfRangeState
        (TransferResponse.ok true "out.png" "1s")).2).map (fun r => r.intensity)
      = [5/2] := by
  rfl

/-- C7 amended: handleStyleTransfer performs no intensity validation:
whenever both images are present the single issued request carries exactly
the intensity stored in the state, whatever its value; the range 0.1 to
2.0 is enforced only by the min and max attributes of the slider input. -/
theorem submit_no_intensity_validation (quickMode : Bool) (s : AppState)
    (response : TransferResponse) (c st : ImageRef)
    (hc : s.contentImage = some c) (hst : s.styleImage = some st) :
    ((handleStyleTransfer quickMode s response).2).map (fun r => r.intensity)
        = [s.styleIntensity] ∧
    intensitySliderMin = 1/10 ∧ intensitySliderMax = 2 := by
  refine ⟨?_, rfl, rfl⟩
  cases response with
  | ok success out time => cases success <;> simp [handleStyleTransfer, hc, hst]
  | httpError msg => simp [handleStyleTransfer, hc, hst]

/-- C7 amended witness: concrete evaluation at the out-of-range state. -/
theorem submit_no_intensity_validation_witness :
    ((handleStyleTransfer false outOfRangeState
        (TransferResponse.ok true "out.png" "1s")).2).map (fun r => r.intensity)
        = [outOfRangeState.styleIntensity] ∧
    intensitySliderMin = 1/10 ∧ intensitySliderMax = 2 :=
  submit_no_intensity_validation false outOfRangeState
    (TransferResponse.ok true "out.png" "1s") sampleContent sampleStyle rfl rfl

/-- C4: for any mixer state of 1 to 4 entries with positive weights,
handleMix emits for each entry its weight divided by the total, the
emitted weights sum to exactly 1, and the displayed raw weights are not
mutated (the state after the call is the unchanged input). -/
theorem mix_normalizes_weights (styles : List MixerStyle)
    (hlen1 : 1 ≤ styles.length) (hlen4 : styles.length ≤ 4)
    (hpos : ∀ s ∈ styles, 0 < s.weight) :
    (handleMix styles).2
        = styles.map (fun s => { s with weight := s.weight / mixTotal styles }) ∧
    (((handleMix styles).2).map (fun s => s.weight)).sum = 1 ∧
    (handleMix styles).1 = styles := by
  refine ⟨rfl, ?_, rfl⟩
  have hne : styles ≠ [] := by
    cases styles with
    | nil => simp at hlen1
    | cons a l => simp
  have hmapne : styles.map (fun s => s.weight) ≠ [] := by
    simpa using hne
  have hpos2 : ∀ w ∈ styles.map (fun s => s.weight), 0 < w := by
    intro w hw
    rcases List.mem_map.mp hw with ⟨s, hs, rfl⟩
    exact hpos s hs
  have htot : (0 : ℚ) < (styles.map (fun s => s.weight)).sum :=
    List.sum_pos _ hpos2 hmapne
  have htot2 : mixTotal styles ≠ 0 := by
    rw [mixTotal_eq_sum]
    exact ne_of_gt htot
  have hmap : ((handleMix styles).2).map (fun s => s.weight)
      = styles.map (fun s => s.weight / mixTotal styles) := by
    simp [handleMix, normalizeWeights]
  rw [hmap, sum_map_weight_div, ← mixTotal_eq_sum, div_self htot2]

/-- C4 witness: concrete evaluation on two entries of weights 0.5 and 0.25. -/
theorem mix_normalizes_weights_witness :
    (handleMix twoStyles).2
        = twoStyles.map (fun s => { s with weight := s.weight / mixTotal twoStyles }) ∧
    (((handleMix twoStyles).2).map (fun s => s.weight)).sum = 1 ∧
    (handleMix twoStyles).1 = twoStyles :=
  mix_normalizes_weights twoStyles (by norm_num [twoStyles]) (by norm_num [twoStyles])
    (by
      intro s hs
      simp only [twoStyles, List.mem_cons, List.not_mem_nil, or_false] at hs
      rcases hs with h | h <;> subst h <;> norm_num)

/-- C5: on the all-zero mixer state the reduce-computed total is 0 and
normalizeWeights divides by it unconditionally: there is no zero-sum
guard, so the emitted weights are the unguarded quotients by zero (NaN in
the JS source) and in particular do not sum to 1. -/
theorem normalizeWeights_zero_sum_unguarded :
    mixTotal zeroStyles = 0 ∧
    ((normalizeWeights zeroStyles).map (fun s => s.weight)).sum = 0 := by
  constructor
  · simp [mixTotal, zeroStyles]
  · simp [normalizeWeights, mixTotal, zeroStyles]

/-- C6: with exactly 4 entries addStyle is a no-op and the count stays 4;
with exactly 1 entry removeStyle is a no-op and the count stays 1; both
return the state unchanged rather than erroring. -/
theorem mixer_entry_count_bounds (styles : List MixerStyle) (newId oldId : Nat) :
    (styles.length = 4 → addStyle newId styles = styles) ∧
    (styles.length = 1 → removeStyle oldId styles = styles) := by
  constructor
  · intro h
    simp [addStyle, h]
  · intro h
    simp [removeStyle, h]

/-- C6 witness: concrete evaluation on a 4-entry state and a 1-entry state. -/
theorem mixer_entry_count_bounds_witness :
    addStyle 99 fourStyles = fourStyles ∧
    removeStyle 1 initialMixerStyles = initialMixerStyles :=
  ⟨(mixer_entry_count_bounds fourStyles 99 0).1 (by norm_num [fourStyles]),
   (mixer_entry_count_bounds initialMixerStyles 0 1).2 (by norm_num [initialMixerStyles])⟩

/-- C8 counterexample: with entry a.png selected, a successful confirmed
delete of the non-selected entry b.png clears the selection instead of
leaving it unchanged as the claim states. -/
theorem delete_nonselected_clears_selection :
    (handleDelete true DeleteOutcome.success "b.png"
        { images := [{ filename := "a.png" }, { filename := "b.png" }]
          selectedImage := some { filename := "a.png" } }).selectedImage = none := by
  rfl

/-- C8 amended: every successful confirmed delete clears the selection
unconditionally (whether or not the deleted entry was selected) and evicts
exactly the entries bearing the deleted filename from the cached list,
keeping every other entry. -/
theorem delete_success_state (g : GalleryState) (filename : String) :
    (handleDelete true DeleteOutcome.success filename g).selectedImage = none ∧
    (handleDelete true DeleteOutcome.success filename g).images
        = g.images.filter (fun img => img.filename != filename) ∧
    ∀ img, img ∈ (handleDelete true DeleteOutcome.success filename g).images
        ↔ (img ∈ g.images ∧ img.filename ≠ filename) := by
  refine ⟨rfl, rfl, ?_⟩
  intro img
  simp [handleDelete, List.mem_filter]

/-- C10: when the remote DELETE fails, handleDelete leaves the gallery
state exactly as it was: the cache still contains the entry and the
selection is preserved. -/
theorem delete_failure_state_unchanged (g : GalleryState) (filename msg : String) :
    handleDelete true (DeleteOutcome.failure msg) filename g = g := by
  rfl

/-- C9: evaluating the upload handler at the failing input: two successive
successful content uploads from the fresh environment leave both created
object URL handles live (the first is never revoked when replaced), and a
subsequent reset also revokes nothing, contradicting the claim that at
most one live preview handle exists per role. -/
theorem upload_replacement_leaks_handle :
    (handleContentUpload (UploadOutcome.ok "b.png" "/uploads/b.png")
        (handleContentUpload (UploadOutcome.ok "a.png" "/uploads/a.png")
          emptyPreviewEnv)).liveHandles = [0, 1] ∧
    (handleReset (handleContentUpload (UploadOutcome.ok "b.png" "/uploads/b.png")
        (handleContentUpload (UploadOutcome.ok "a.png" "/uploads/a.png")
          emptyPreviewEnv))).liveHandles = [0, 1] := by
  constructor
  · rfl
  · rfl
